import Mathlib

/-!
Verification development for the drawgor round-lifecycle and claim-reward
serverless functions.

The definitions below are a shallow embedding of two source files:
* the claim-reward edge function (src/unnamed/part_010, lines 35-365),
* the lobby scheduler (src/unnamed/part_010, lines 415-729), whose logic is
  duplicated verbatim, modulo the outcome domain and table names, in
  src/supabase/functions/fight-dragon-scheduler/index.ts (processCompletedBattle
  draws from the two-valued domain 1 or 10 instead of 1..10; everything proved
  about the settlement function below holds for an arbitrary drawn outcome and
  so covers both variants).

Database rows become Lean structures; every fallible external effect (database
reads and writes, RPC connection, key decoding, balance query, blockhash fetch,
transaction submission) is driven by an explicit oracle record, so one run of
the embedded function is a pure computation and every error path of the source
is reachable by choosing the oracle.  Monetary values are rationals (the source
uses JS decimal arithmetic; fee and prize expressions are exact in the rational
embedding).  Lamport conversion uses Int.floor, mirroring Math.floor.
-/

namespace Drawgor

/-- A row of the players table (an Entry in the spec's data model):
src/unnamed/part_010 lines 404-413 and the claim handler's player queries. -/
structure ClaimEntry where
  id : Nat
  wallet_address : String
  selected_number : Nat
  transaction_hash : Option String
  is_winner : Bool
  prize_amount : Rat
  reward_claimed : Bool
  reward_transaction_hash : Option String
deriving DecidableEq, Repr

/-- The system_config row read by the claim handler
(src/unnamed/part_010 lines 108-112). -/
structure SystemConfig where
  central_wallet_address : Option String
  central_wallet_private_key : Option String
deriving DecidableEq, Repr

/-- JS truthiness of a nullable string field: null/absent and the empty string
are falsy ("!config.central_wallet_address" at line 129). -/
def optTruthy : Option String → Bool
  | none => false
  | some s => s ≠ ""

/-- LAMPORTS_PER_SOL from @solana/web3.js, used at lines 210, 215, 235. -/
def LAMPORTS_PER_SOL : Nat := 1000000000

/-- The hardcoded estimated network fee, 0.000005 GOR (line 217). -/
def claimTransactionFee : Rat := 5 / 1000000

/-- Error outcomes of the claim handler, one per throw site
(src/unnamed/part_010 lines 79-224 and 256-330). -/
inductive ClaimError
  | playerFetchFailed
  | playerNotFound
  | walletMismatch
  | notWinner
  | alreadyClaimed (txRef : Option String)
  | invalidAmount
  | configFetchFailed
  | configNotFound
  | walletNotConfigured
  | claimWriteFailed
  | connectFailed
  | invalidKeyFormat
  | invalidKeySize (len : Nat)
  | keyAddressMismatch
  | invalidRecipient
  | insufficientFunds
  | blockhashFailed
  | sendFailed
  | rollbackFailed (orig : ClaimError)
deriving DecidableEq, Repr

/-- The HTTP response of the claim handler: the success body carries the
transaction signature, the amount and the recipient (lines 291-310). -/
inductive ClaimResult
  | ok (signature : String) (amount : Rat) (recipient : String)
  | err (e : ClaimError)
deriving DecidableEq, Repr

/-- One successful database write to the claimed entry row, in order of
occurrence: the conditional claimed-flag lock (lines 137-144), the
post-send hash update (lines 268-273), the rollback (lines 316-322). -/
inductive EntryWrite
  | claimLock
  | hashUpdate (sig : String)
  | rollback
deriving DecidableEq, Repr

/-- Everything observable about one run of the claim handler: the HTTP
result, the final state of the entry row, the successful entry writes in
order, and the lamport amounts of the on-chain transfers submitted. -/
structure ClaimOutcome where
  result : ClaimResult
  entry : Option ClaimEntry
  writes : List EntryWrite
  payoutLamports : List Int
deriving DecidableEq, Repr

/-- Oracle for the blockchain-facing effects of one claim run. -/
structure ChainEnv where
  connectOk : Bool
  decodedKeyLen : Option Nat
  derivedAddress : String
  recipientValid : Bool
  balanceLamports : Nat
  blockhashOk : Bool
  sendOk : Bool
  signature : String
deriving DecidableEq, Repr

/-- Oracle for the database-facing effects of one claim run. -/
structure ClaimDbEnv where
  playerFetchFails : Bool
  configFetchFails : Bool
  claimWriteFails : Bool
  hashWriteFails : Bool
  rollbackWriteFails : Bool
deriving DecidableEq, Repr

/-- The effect of the conditional claimed-flag update of lines 137-144:
the update filter is id = player_id AND reward_claimed = false, so the row
changes only when still unclaimed; a zero-row match is not an error. -/
def lockEntry (p : ClaimEntry) : ClaimEntry :=
  if p.reward_claimed = false then
    { p with reward_claimed := true, reward_transaction_hash := some "PROCESSING" }
  else p

/-- The unconditional rollback write of lines 316-322. -/
def rollbackEntry (p : ClaimEntry) : ClaimEntry :=
  { p with reward_claimed := false, reward_transaction_hash := none }

/-- The blockchain stage of the claim handler, lines 155-264: connect, decode
the private key (base58 then comma-separated fallback), check the 64-byte
size, check the derived address against the configured one, parse the
recipient address, check the treasury balance against prize plus fee, fetch a
blockhash, sign and submit.  Returns the submission signature or the first
error in source order. -/
def chainStage (cfgAddress : String) (prize : Rat)
    (ch : ChainEnv) : Except ClaimError String :=
  if ch.connectOk = false then .error .connectFailed
  else
    match ch.decodedKeyLen with
    | none => .error .invalidKeyFormat
    | some len =>
      if len = 64 then
        if ch.derivedAddress ≠ cfgAddress then .error .keyAddressMismatch
        else if ch.recipientValid = false then .error .invalidRecipient
        else if (ch.balanceLamports : Rat) / (LAMPORTS_PER_SOL : Rat)
            < prize + claimTransactionFee then .error .insufficientFunds
        else if ch.blockhashOk = false then .error .blockhashFailed
        else if ch.sendOk = false then .error .sendFailed
        else .ok ch.signature
      else .error (.invalidKeySize len)

/-- Steps 1-2 plus the config fetch of the claim handler (lines 61-133):
fetch and validate the player row, fetch the configuration and reject a
missing or falsy wallet address or private key.  No database write happens
here; the first write is the claimed-flag lock that follows. -/
def validateAndFetch (db : ClaimDbEnv) (playerRow : Option ClaimEntry)
    (cfgRow : Option SystemConfig) (wallet_address : String) :
    Except ClaimError (ClaimEntry × SystemConfig) :=
  if db.playerFetchFails then .error .playerFetchFailed
  else
    match playerRow with
    | none => .error .playerNotFound
    | some player =>
      if player.wallet_address ≠ wallet_address then .error .walletMismatch
      else if player.is_winner = false then .error .notWinner
      else if player.reward_claimed = true then
        .error (.alreadyClaimed player.reward_transaction_hash)
      else if player.prize_amount ≤ 0 then .error .invalidAmount
      else if db.configFetchFails then .error .configFetchFailed
      else
        match cfgRow with
        | none => .error .configNotFound
        | some cfg =>
          if optTruthy cfg.central_wallet_address = false
              ∨ optTruthy cfg.central_wallet_private_key = false then
            .error .walletNotConfigured
          else .ok (player, cfg)

/-- Steps 3-5 of the claim handler (lines 135-331): the conditional
claimed-flag lock, then the blockchain stage inside a catch whose handler
performs the rollback write and rethrows the original error (or raises the
distinct rollback-failed error when that write also fails); on submission
success the hash-update error is only logged and the response is still a
success. -/
def payoutStage (db : ClaimDbEnv) (ch : ChainEnv) (player : ClaimEntry)
    (cfg : SystemConfig) (wallet_address : String) : ClaimOutcome :=
  if db.claimWriteFails then ⟨.err .claimWriteFailed, some player, [], []⟩
  else
    let locked := lockEntry player
    match chainStage (cfg.central_wallet_address.getD "") player.prize_amount ch with
    | .error e =>
      if db.rollbackWriteFails then
        ⟨.err (.rollbackFailed e), some locked, [.claimLock], []⟩
      else
        ⟨.err e, some (rollbackEntry locked), [.claimLock, .rollback], []⟩
    | .ok sig =>
      let lam : Int := Int.floor (player.prize_amount * (LAMPORTS_PER_SOL : Rat))
      if db.hashWriteFails then
        ⟨.ok sig player.prize_amount wallet_address, some locked, [.claimLock], [lam]⟩
      else
        ⟨.ok sig player.prize_amount wallet_address,
          some { locked with reward_transaction_hash := some ch.signature },
          [.claimLock, .hashUpdate sig], [lam]⟩

/-- Shallow embedding of the claim-reward edge function body
(src/unnamed/part_010 lines 41-364).  `playerRow` is what the player select
returns when it does not fail, `cfgRow` what the system_config select
returns.  Any error before the claimed-flag lock leaves the entry row as
fetched and performs no write. -/
def claimReward (db : ClaimDbEnv) (ch : ChainEnv) (playerRow : Option ClaimEntry)
    (cfgRow : Option SystemConfig) (wallet_address : String) : ClaimOutcome :=
  match validateAndFetch db playerRow cfgRow wallet_address with
  | .error e => ⟨.err e, playerRow, [], []⟩
  | .ok pc => payoutStage db ch pc.1 pc.2 wallet_address

/-! ## Scheduler and settlement model (src/unnamed/part_010 lines 415-729) -/

/-- Status values of the lobbies table (line 398). -/
inductive LobbyStatus
  | waiting
  | active
  | completed
deriving DecidableEq, Repr

/-- A row of the lobbies table (a Round in the spec's data model),
lines 394-402. -/
structure Lobby where
  id : Nat
  start_time : Int
  end_time : Int
  status : LobbyStatus
  result_number : Option Nat
  total_players : Nat
  total_amount : Rat
deriving DecidableEq, Repr

/-- A row of the players table as seen by the scheduler (lines 404-413). -/
structure Player where
  id : Nat
  lobby_id : Nat
  wallet_address : String
  selected_number : Nat
  transaction_hash : Option String
  is_winner : Bool
  prize_amount : Rat
  reward_claimed : Bool
deriving DecidableEq, Repr

/-- The hardcoded entry fee, 0.1 GOR (line 650). -/
def entryFee : Rat := 1 / 10

/-- The hardcoded platform fee rate, 3 percent (line 652). -/
def platformFeeRate : Rat := 3 / 100

/-- Oracle for the fallible persistence operations of one settlement run
(processCompletedLobby).  `winnerUpdateFails` is keyed by player row id. -/
structure SettleEnv where
  playersFetchFails : Bool
  winnerUpdateFails : Nat → Bool
  lobbyUpdateFails : Bool
  fallbackUpdateFails : Bool

/-- The winner-row mutation of lines 672-679. -/
def winnerUpdate (pp : Rat) (p : Player) : Player :=
  { p with is_winner := true, prize_amount := pp, reward_claimed := false }

/-- A relational update of the players table filtered on the primary key. -/
def updateRowById (f : Player → Player) (wid : Nat) (ps : List Player) : List Player :=
  ps.map fun p => if p.id = wid then f p else p

/-- The winners of a settlement run: the players whose selected_number equals
the drawn number (line 657). -/
def settleWinners (winningNumber : Nat) (players : List Player) : List Player :=
  players.filter fun p => p.selected_number = winningNumber

/-- The per-winner prize of lines 650-661: pool = count * 0.1, minus the 3
percent platform fee, divided equally among the winners (0 when none). -/
def settlePrize (winningNumber : Nat) (players : List Player) : Rat :=
  let totalPrizePool := (players.length : Rat) * entryFee
  let prizePoolAfterFee := totalPrizePool - totalPrizePool * platformFeeRate
  if (settleWinners winningNumber players).length > 0 then
    prizePoolAfterFee / ((settleWinners winningNumber players).length : Rat)
  else 0

/-- Shallow embedding of processCompletedLobby (lines 627-728); identical,
modulo the outcome domain drawn by the caller, to processCompletedBattle in
src/supabase/functions/fight-dragon-scheduler/index.ts lines 263-369.

The try block: fetch the players of the lobby (a fetch error throws); compute
the pool, fee and per-winner prize; update each winner row (an update error is
only logged, the loop continues); mark the lobby completed with the drawn
number and the true totals (an update error throws).  The catch block
force-completes the lobby with a fresh fallback random number and zeroed
totals, without checking that write's own error. -/
def processCompletedLobbyRun (env : SettleEnv) (winningNumber fallbackNumber : Nat)
    (players : List Player) (lobby : Lobby) : List Player × Lobby :=
  if env.playersFetchFails then
    if env.fallbackUpdateFails then (players, lobby)
    else
      (players,
        { lobby with
          status := .completed, result_number := some fallbackNumber,
          total_players := 0, total_amount := 0 })
  else
    let totalPlayers := players.length
    let totalPrizePool := (totalPlayers : Rat) * entryFee
    let prizePerWinner := settlePrize winningNumber players
    let updated := (settleWinners winningNumber players).foldl
      (fun acc w =>
        if env.winnerUpdateFails w.id then acc
        else updateRowById (winnerUpdate prizePerWinner) w.id acc)
      players
    if env.lobbyUpdateFails then
      if env.fallbackUpdateFails then (updated, lobby)
      else
        (updated,
          { lobby with
            status := .completed, result_number := some fallbackNumber,
            total_players := 0, total_amount := 0 })
    else
      (updated,
        { lobby with
          status := .completed, result_number := some winningNumber,
          total_players := totalPlayers, total_amount := totalPrizePool })

/-- The settlement run with every persistence operation succeeding. -/
def noSettleErrors : SettleEnv :=
  { playersFetchFails := false, winnerUpdateFails := fun _ => false,
    lobbyUpdateFails := false, fallbackUpdateFails := false }

/-- Sum of prize_amount over the rows currently flagged is_winner. -/
def winnerPrizeSum (ps : List Player) : Rat :=
  ((ps.filter fun p => p.is_winner).map Player.prize_amount).sum

/-- The lobby row inserted by createNewLobby (lines 596-625): waiting status,
no result number, zeroed counters, start 10 s ahead, end 60 s later. -/
def newLobby (idv : Nat) (now : Int) : Lobby :=
  { id := idv, start_time := now + 10000, end_time := now + 70000,
    status := .waiting, result_number := none, total_players := 0, total_amount := 0 }

/-! ## Reachable lobby states under scheduler invocations (for the
outcome-iff-completed invariant).  The three mutations the scheduler performs
on the lobbies table are: inserting a fresh waiting lobby (createNewLobby),
setting a waiting lobby active (lines 504-516), and replacing an expired
active lobby by the result of one settlement run. -/

/-- One lobby-table mutation performed by a scheduler invocation. -/
inductive SchedStep : List Lobby → List Lobby → Prop
  | create (ls : List Lobby) (idv : Nat) (now : Int) :
      SchedStep ls (ls ++ [newLobby idv now])
  | activate (pre post : List Lobby) (l : Lobby) (h : l.status = .waiting) :
      SchedStep (pre ++ l :: post) (pre ++ { l with status := .active } :: post)
  | settle (pre post : List Lobby) (l : Lobby) (env : SettleEnv)
      (o fb : Nat) (players : List Player) (h : l.status = .active) :
      SchedStep (pre ++ l :: post)
        (pre ++ (processCompletedLobbyRun env o fb players l).2 :: post)

/-- Lobby-table states reachable from the empty table by scheduler
mutations. -/
inductive SchedReachable : List Lobby → Prop
  | init : SchedReachable []
  | step {s t : List Lobby} : SchedReachable s → SchedStep s t → SchedReachable t

/-! ## One whole scheduler invocation (Deno.serve body, lines 415-594). -/

/-- Oracle for one scheduler invocation.  Per-lobby quantities (the settlement
oracle, the drawn and fallback numbers, the fetched players) are keyed by
lobby id. -/
structure SchedulerEnv where
  expiredFetchFails : Bool
  settleEnv : Nat → SettleEnv
  winningNumber : Nat → Nat
  fallbackNumber : Nat → Nat
  playersOf : Nat → List Player
  waitingFetchFails : Bool
  activateFails : Nat → Bool
  currentFetchFails : Bool
  createFails : Bool
  newLobbyId : Nat

/-- The scheduler response: success:false models the catch-all 500 response
(lines 579-593), the stats mirror the response body of lines 557-568. -/
structure SchedulerResult where
  success : Bool
  processedLobbies : Nat
  activatedLobbies : Nat
  createdNewLobby : Bool
  lobbies : List Lobby
deriving Repr

/-- Filter of the expired-lobbies query (lines 472-476). -/
def isExpiredActive (now : Int) (l : Lobby) : Bool :=
  l.status = LobbyStatus.active ∧ l.end_time < now

/-- Filter of the waiting-lobbies query (lines 491-495). -/
def isDueWaiting (now : Int) (l : Lobby) : Bool :=
  l.status = LobbyStatus.waiting ∧ l.start_time < now

/-- STEP 1 of the invocation: settle every expired active lobby in order,
counting processedLobbies (the counter increments even when the settlement
run failed internally, since processCompletedLobby never throws). -/
def settlePhase (env : SchedulerEnv) (now : Int) (ls : List Lobby) :
    List Lobby × Nat :=
  (ls.filter (isExpiredActive now)).foldl
    (fun acc l =>
      (acc.1.map (fun x =>
        if x.id = l.id then
          (processCompletedLobbyRun (env.settleEnv l.id) (env.winningNumber l.id)
            (env.fallbackNumber l.id) (env.playersOf l.id) l).2
        else x), acc.2 + 1))
    (ls, 0)

/-- STEP 2 of the invocation: activate every due waiting lobby; an update
error is logged and skipped, a success increments activatedLobbies. -/
def activatePhase (env : SchedulerEnv) (now : Int) (ls : List Lobby) :
    List Lobby × Nat :=
  (ls.filter (isDueWaiting now)).foldl
    (fun acc l =>
      if env.activateFails l.id then acc
      else (acc.1.map (fun x =>
          if x.id = l.id then { x with status := LobbyStatus.active } else x),
        acc.2 + 1))
    (ls, 0)

/-- Shallow embedding of one scheduler invocation (lines 462-577): a failed
list fetch, current-lobby fetch or lobby insert throws out of the handler
body into the catch-all, producing the 500 response with the sub-steps after
the throw never attempted. -/
def runScheduler (env : SchedulerEnv) (now : Int) (lobbies : List Lobby) :
    SchedulerResult :=
  if env.expiredFetchFails then ⟨false, 0, 0, false, lobbies⟩
  else
    let s1 := settlePhase env now lobbies
    if env.waitingFetchFails then ⟨false, s1.2, 0, false, s1.1⟩
    else
      let s2 := activatePhase env now s1.1
      if env.currentFetchFails then ⟨false, s1.2, s2.2, false, s2.1⟩
      else
        let current := (s2.1.filter fun l =>
          l.status = LobbyStatus.waiting ∨ l.status = LobbyStatus.active).getLast?
        let shouldCreate :=
          match current with
          | none => true
          | some c => decide (c.end_time - now < 15000)
        if shouldCreate then
          if env.createFails then ⟨false, s1.2, s2.2, false, s2.1⟩
          else ⟨true, s1.2, s2.2, true, s2.1 ++ [newLobby env.newLobbyId now]⟩
        else ⟨true, s1.2, s2.2, false, s2.1⟩

/-! ## Two concurrent claim invocations (for the at-most-once property).
Each invocation of the claim handler touches the shared entry row at four
points: the initial select (line 63), the conditional claimed-flag update
(lines 137-144), the transaction submission (line 256, counted as a payout),
and the final hash update (lines 268-273).  Validation (lines 88-102) is pure
computation on the snapshot the select returned.  The config fetch, key
handling and balance check are reads of other resources and are taken as
succeeding here.  An interleaving is a list of booleans choosing which
invocation performs its next atomic operation. -/

/-- Shared state of the two concurrent claim invocations: the entry row and
the number of on-chain transfers submitted so far. -/
structure ConcState where
  entry : ClaimEntry
  payouts : Nat
deriving DecidableEq, Repr

/-- Completion status of one invocation. -/
inductive InvStatus
  | running
  | succeeded
  | failedValidation
deriving DecidableEq, Repr

/-- Local state of one invocation: its program counter and the snapshot its
select returned. -/
structure InvState where
  pc : Nat
  snap : Option ClaimEntry
  status : InvStatus
deriving DecidableEq, Repr

/-- The validations of lines 88-102 applied to the snapshot. -/
def snapValid (wa : String) (p : ClaimEntry) : Bool :=
  p.wallet_address = wa ∧ p.is_winner = true ∧ p.reward_claimed = false
    ∧ 0 < p.prize_amount

/-- One atomic operation of one claim invocation.  pc 0: select the row.
pc 1: validate the snapshot and, when it passes, perform the conditional
claimed-flag update — the update matches the row only while reward_claimed is
still false, and a zero-row match returns no error, which the source never
distinguishes from a one-row match.  pc 2: sign and submit the transfer.
pc 3: write the signature over the sentinel.  -/
def claimStep (wa sig : String) (c : ConcState) (i : InvState) :
    ConcState × InvState :=
  match i.pc with
  | 0 => (c, { i with pc := 1, snap := some c.entry })
  | 1 =>
    match i.snap with
    | some s =>
      if snapValid wa s then
        ({ c with entry := lockEntry c.entry }, { i with pc := 2 })
      else (c, { i with pc := 4, status := .failedValidation })
    | none => (c, { i with pc := 4, status := .failedValidation })
  | 2 => ({ c with payouts := c.payouts + 1 }, { i with pc := 3 })
  | 3 => ({ c with entry :=
        { c.entry with reward_transaction_hash := some sig } },
      { i with pc := 4, status := .succeeded })
  | _ => (c, i)

/-- Joint state of the shared row and the two invocations. -/
structure TwoClaims where
  shared : ConcState
  a : InvState
  b : InvState
deriving DecidableEq, Repr

/-- Run a schedule: false lets invocation a take its next atomic operation,
true lets invocation b. -/
def runTwoClaims (wa siga sigb : String) : List Bool → TwoClaims → TwoClaims
  | [], s => s
  | c :: rest, s =>
    if c then
      let r := claimStep wa sigb s.shared s.b
      runTwoClaims wa siga sigb rest ⟨r.1, s.a, r.2⟩
    else
      let r := claimStep wa siga s.shared s.a
      runTwoClaims wa siga sigb rest ⟨r.1, r.2, s.b⟩

/-! ## Helper lemmas about the claim handler stages -/

/-- Errors the blockchain stage can produce. -/
def isChainError : ClaimError → Prop
  | .connectFailed => True
  | .invalidKeyFormat => True
  | .invalidKeySize _ => True
  | .keyAddressMismatch => True
  | .invalidRecipient => True
  | .insufficientFunds => True
  | .blockhashFailed => True
  | .sendFailed => True
  | _ => False

/-- Errors the pre-lock stage can produce. -/
def isPreLockError : ClaimError → Prop
  | .playerFetchFailed => True
  | .playerNotFound => True
  | .walletMismatch => True
  | .notWinner => True
  | .alreadyClaimed _ => True
  | .invalidAmount => True
  | .configFetchFailed => True
  | .configNotFound => True
  | .walletNotConfigured => True
  | _ => False

/-- C4 helper: the configuration errors raised before the claimed-flag lock. -/
def isEarlyConfigError (e : ClaimError) : Prop :=
  e = .configFetchFailed ∨ e = .configNotFound ∨ e = .walletNotConfigured

/-- C4 helper: the configuration errors raised after the claimed-flag lock
(malformed or wrong-size signing credential, derived-address mismatch). -/
def isLateConfigError (e : ClaimError) : Prop :=
  e = .invalidKeyFormat ∨ (∃ l, e = .invalidKeySize l) ∨ e = .keyAddressMismatch


theorem chainStage_error_isChain (addr : String) (prize : Rat) (ch : ChainEnv)
    (e : ClaimError) (h : chainStage addr prize ch = .error e) : isChainError e := by
  unfold chainStage at h
  repeat' split at h
  all_goals (try injection h with h)
  all_goals (try subst h)
  all_goals simp_all [isChainError]

theorem chainStage_ok_sig (addr : String) (prize : Rat) (ch : ChainEnv)
    (s : String) (h : chainStage addr prize ch = .ok s) : s = ch.signature := by
  unfold chainStage at h
  repeat' split at h
  all_goals (try injection h with h)
  all_goals simp_all

theorem validateAndFetch_error_isPreLock (db : ClaimDbEnv) (playerRow : Option ClaimEntry)
    (cfgRow : Option SystemConfig) (wa : String) (e : ClaimError)
    (h : validateAndFetch db playerRow cfgRow wa = .error e) : isPreLockError e := by
  unfold validateAndFetch at h
  repeat' split at h
  all_goals (try injection h with h)
  all_goals (try subst h)
  all_goals simp_all [isPreLockError]

theorem validateAndFetch_ok_shape (db : ClaimDbEnv) (playerRow : Option ClaimEntry)
    (cfgRow : Option SystemConfig) (wa : String) (pc : ClaimEntry × SystemConfig)
    (h : validateAndFetch db playerRow cfgRow wa = .ok pc) :
    playerRow = some pc.1 ∧ cfgRow = some pc.2 := by
  unfold validateAndFetch at h
  repeat' split at h
  all_goals (try injection h with h)
  all_goals (try subst h)
  all_goals simp_all

theorem payoutStage_err_cases (db : ClaimDbEnv) (ch : ChainEnv) (player : ClaimEntry)
    (cfg : SystemConfig) (wa : String) (e : ClaimError)
    (h : (payoutStage db ch player cfg wa).result = .err e) :
    e = .claimWriteFailed ∨ (∃ o, e = .rollbackFailed o)
      ∨ (chainStage (cfg.central_wallet_address.getD "") player.prize_amount ch = .error e
          ∧ db.rollbackWriteFails = false
          ∧ payoutStage db ch player cfg wa
            = ⟨.err e, some (rollbackEntry (lockEntry player)), [.claimLock, .rollback], []⟩) := by
  unfold payoutStage at *
  repeat' split at h
  all_goals (try injection h with h)
  all_goals (try subst h)
  all_goals simp_all

theorem payoutStage_ok_cases (db : ClaimDbEnv) (ch : ChainEnv) (player : ClaimEntry)
    (cfg : SystemConfig) (wa : String) (sig : String) (amt : Rat) (rcpt : String)
    (h : (payoutStage db ch player cfg wa).result = .ok sig amt rcpt) :
    amt = player.prize_amount ∧ rcpt = wa
    ∧ chainStage (cfg.central_wallet_address.getD "") player.prize_amount ch = .ok sig
    ∧ (payoutStage db ch player cfg wa).payoutLamports
        = [Int.floor (player.prize_amount * (LAMPORTS_PER_SOL : Rat))]
    ∧ (db.hashWriteFails = false →
        (payoutStage db ch player cfg wa).entry
          = some { lockEntry player with reward_transaction_hash := some ch.signature })
    ∧ (db.hashWriteFails = true →
        (payoutStage db ch player cfg wa).entry = some (lockEntry player)) := by
  unfold payoutStage at *
  repeat' split at h
  all_goals (try injection h with h)
  all_goals simp_all

/-! ## Claim theorems for the claim-reward handler -/

/-- C4 (amended): a configuration error detected before the claimed-flag
lock (config fetch failure, missing config row, absent or falsy wallet
address or private key) is reported with no entry write at all; but a
malformed or wrong-size signing credential and a derived-address mismatch
are detected only after the claimed-flag lock, so those calls do write the
claimed flag and then restore it through the rollback write (the final
state carries reward_claimed = false and a null transaction reference). -/
theorem claim_config_error_side_effects (db : ClaimDbEnv) (ch : ChainEnv)
    (playerRow : Option ClaimEntry) (cfgRow : Option SystemConfig) (wa : String) :
    (∀ e, (claimReward db ch playerRow cfgRow wa).result = .err e → isEarlyConfigError e →
      (claimReward db ch playerRow cfgRow wa).writes = []
        ∧ (claimReward db ch playerRow cfgRow wa).entry = playerRow)
    ∧ (∀ e, (claimReward db ch playerRow cfgRow wa).result = .err e → isLateConfigError e →
      (claimReward db ch playerRow cfgRow wa).writes = [.claimLock, .rollback]
        ∧ ∃ p, (claimReward db ch playerRow cfgRow wa).entry = some p
            ∧ p.reward_claimed = false ∧ p.reward_transaction_hash = none) := by
  constructor
  · intro e hres hcfg
    cases hv : validateAndFetch db playerRow cfgRow wa with
    | error e0 =>
      have hout : claimReward db ch playerRow cfgRow wa = ⟨.err e0, playerRow, [], []⟩ := by
        simp [claimReward, hv]
      rw [hout]
      exact ⟨rfl, rfl⟩
    | ok pc =>
      have hres2 : (payoutStage db ch pc.1 pc.2 wa).result = .err e := by
        simpa [claimReward, hv] using hres
      rcases payoutStage_err_cases db ch pc.1 pc.2 wa e hres2 with h1 | ⟨o, h2⟩ | ⟨hc, _, _⟩
      · rcases hcfg with h | h | h <;> simp_all [isEarlyConfigError]
      · rcases hcfg with h | h | h <;> simp_all [isEarlyConfigError]
      · have := chainStage_error_isChain _ _ _ _ hc
        rcases hcfg with h | h | h <;> simp_all [isChainError]
  · intro e hres hlate
    cases hv : validateAndFetch db playerRow cfgRow wa with
    | error e0 =>
      have hpre := validateAndFetch_error_isPreLock db playerRow cfgRow wa e0 hv
      have he : e0 = e := by simpa [claimReward, hv] using hres
      subst he
      rcases hlate with h | ⟨l, h⟩ | h <;> simp_all [isPreLockError]
    | ok pc =>
      have hres2 : (payoutStage db ch pc.1 pc.2 wa).result = .err e := by
        simpa [claimReward, hv] using hres
      rcases payoutStage_err_cases db ch pc.1 pc.2 wa e hres2 with h1 | ⟨o, h2⟩ | ⟨_, _, hout⟩
      · rcases hlate with h | ⟨l, h⟩ | h <;> simp_all
      · rcases hlate with h | ⟨l, h⟩ | h <;> simp_all
      · have hcr : claimReward db ch playerRow cfgRow wa
            = ⟨.err e, some (rollbackEntry (lockEntry pc.1)), [.claimLock, .rollback], []⟩ := by
          simp [claimReward, hv, hout]
        rw [hcr]
        exact ⟨rfl, rollbackEntry (lockEntry pc.1), rfl, rfl, rfl⟩

/-- C4 counterexample: with a present but undecodable signing credential the
call fails with the invalid-key-format configuration error, yet the entry's
claimed flag was written during the call (the writes trace contains the
claimed-flag lock), contradicting the claim that no mutation ever happens on
a configuration-error call. -/
theorem claim_malformed_key_mutates_state :
    (claimReward ⟨false, false, false, false, false⟩
        ⟨true, none, "ADDR", true, 1000000000, true, true, "SIG"⟩
        (some ⟨1, "W", 5, some "T", true, Rat.divInt 97 200, false, none⟩)
        (some ⟨some "ADDR", some "BADKEY"⟩) "W").result = .err .invalidKeyFormat
    ∧ (claimReward ⟨false, false, false, false, false⟩
        ⟨true, none, "ADDR", true, 1000000000, true, true, "SIG"⟩
        (some ⟨1, "W", 5, some "T", true, Rat.divInt 97 200, false, none⟩)
        (some ⟨some "ADDR", some "BADKEY"⟩) "W").writes = [.claimLock, .rollback] := by
  decide

/-- C4 witness: the amended theorem applied to the undecodable-credential run. -/
theorem claim_config_error_side_effects_witness :
    (claimReward ⟨false, false, false, false, false⟩
        ⟨true, none, "ADDR", true, 1000000000, true, true, "SIG"⟩
        (some ⟨1, "W", 5, some "T", true, Rat.divInt 97 200, false, none⟩)
        (some ⟨some "ADDR", some "BADKEY"⟩) "W").writes = [.claimLock, .rollback]
    ∧ ∃ p, (claimReward ⟨false, false, false, false, false⟩
        ⟨true, none, "ADDR", true, 1000000000, true, true, "SIG"⟩
        (some ⟨1, "W", 5, some "T", true, Rat.divInt 97 200, false, none⟩)
        (some ⟨some "ADDR", some "BADKEY"⟩) "W").entry = some p
          ∧ p.reward_claimed = false ∧ p.reward_transaction_hash = none :=
  (claim_config_error_side_effects ⟨false, false, false, false, false⟩
      ⟨true, none, "ADDR", true, 1000000000, true, true, "SIG"⟩
      (some ⟨1, "W", 5, some "T", true, Rat.divInt 97 200, false, none⟩)
      (some ⟨some "ADDR", some "BADKEY"⟩) "W").2 .invalidKeyFormat (by decide) (Or.inl rfl)

/-- C3: when the payout stage fails after the claimed-flag lock with
insufficient treasury funds, a blockhash-fetch failure or a submission
failure and the rollback write succeeds, the final entry state has
reward_claimed = false and a null transaction reference, no on-chain
transfer was submitted, and the original error is the reported result;
in particular a claim against a treasury balance below prize plus the
estimated network fee fails with the insufficient-funds error and leaves
the entry fully restored. -/
theorem claim_payout_failure_rollback (db : ClaimDbEnv) (ch : ChainEnv)
    (playerRow : Option ClaimEntry) (cfgRow : Option SystemConfig) (wa : String) :
    (∀ e, (claimReward db ch playerRow cfgRow wa).result = .err e →
      (e = .insufficientFunds ∨ e = .blockhashFailed ∨ e = .sendFailed) →
      (claimReward db ch playerRow cfgRow wa).writes = [.claimLock, .rollback]
        ∧ (∃ p, (claimReward db ch playerRow cfgRow wa).entry = some p
            ∧ p.reward_claimed = false ∧ p.reward_transaction_hash = none)
        ∧ (claimReward db ch playerRow cfgRow wa).payoutLamports = [])
    ∧ (∀ player cfg, playerRow = some player → cfgRow = some cfg →
        player.wallet_address = wa → player.is_winner = true →
        player.reward_claimed = false → 0 < player.prize_amount →
        db.playerFetchFails = false → db.configFetchFails = false →
        db.claimWriteFails = false → db.rollbackWriteFails = false →
        optTruthy cfg.central_wallet_address = true →
        optTruthy cfg.central_wallet_private_key = true →
        ch.connectOk = true → ch.decodedKeyLen = some 64 →
        ch.derivedAddress = cfg.central_wallet_address.getD "" →
        ch.recipientValid = true →
        (ch.balanceLamports : Rat) / (LAMPORTS_PER_SOL : Rat)
          < player.prize_amount + claimTransactionFee →
        claimReward db ch playerRow cfgRow wa
          = ⟨.err .insufficientFunds, some (rollbackEntry (lockEntry player)),
             [.claimLock, .rollback], []⟩) := by
  constructor
  · intro e hres hset
    cases hv : validateAndFetch db playerRow cfgRow wa with
    | error e0 =>
      have hpre := validateAndFetch_error_isPreLock db playerRow cfgRow wa e0 hv
      have he : e0 = e := by simpa [claimReward, hv] using hres
      subst he
      rcases hset with h | h | h <;> simp_all [isPreLockError]
    | ok pc =>
      have hres2 : (payoutStage db ch pc.1 pc.2 wa).result = .err e := by
        simpa [claimReward, hv] using hres
      rcases payoutStage_err_cases db ch pc.1 pc.2 wa e hres2 with h1 | ⟨o, h2⟩ | ⟨_, _, hout⟩
      · rcases hset with h | h | h <;> simp_all
      · rcases hset with h | h | h <;> simp_all
      · have hcr : claimReward db ch playerRow cfgRow wa
            = ⟨.err e, some (rollbackEntry (lockEntry pc.1)), [.claimLock, .rollback], []⟩ := by
          simp [claimReward, hv, hout]
        rw [hcr]
        exact ⟨rfl, ⟨rollbackEntry (lockEntry pc.1), rfl, rfl, rfl⟩, rfl⟩
  · intro player cfg hpr hcr hwa hwin hunc hpos hdb1 hdb2 hdb3 hdb4 hta htk hcon hkey
      hder hrcp hbal
    subst hpr; subst hcr
    have hval : validateAndFetch db (some player) (some cfg) wa = .ok (player, cfg) := by
      have hnp : ¬ player.prize_amount ≤ 0 := not_le.mpr hpos
      simp [validateAndFetch, hwa, hwin, hunc, hnp, hdb1, hdb2, hta, htk]
    have hchain : chainStage (cfg.central_wallet_address.getD "")
        player.prize_amount ch = .error .insufficientFunds := by
      simp [chainStage, hcon, hkey, hder, hrcp, hbal]
    simp [claimReward, hval, payoutStage, hdb3, hchain, hdb4]

/-- C3 witness: a winning entry with prize 0.485 against a treasury holding
0.4 GOR fails with the insufficient-funds error and the state is restored. -/
theorem claim_payout_failure_rollback_witness :
    claimReward ⟨false, false, false, false, false⟩
        ⟨true, some 64, "ADDR", true, 400000000, true, true, "SIG"⟩
        (some ⟨1, "W", 5, some "T", true, Rat.divInt 97 200, false, none⟩)
        (some ⟨some "ADDR", some "KEY"⟩) "W"
      = ⟨.err .insufficientFunds,
         some (rollbackEntry (lockEntry ⟨1, "W", 5, some "T", true, Rat.divInt 97 200, false, none⟩)),
         [.claimLock, .rollback], []⟩ :=
  (claim_payout_failure_rollback ⟨false, false, false, false, false⟩
      ⟨true, some 64, "ADDR", true, 400000000, true, true, "SIG"⟩
      (some ⟨1, "W", 5, some "T", true, Rat.divInt 97 200, false, none⟩)
      (some ⟨some "ADDR", some "KEY"⟩) "W").2
    ⟨1, "W", 5, some "T", true, Rat.divInt 97 200, false, none⟩ ⟨some "ADDR", some "KEY"⟩
    rfl rfl rfl rfl rfl (by norm_num [Rat.divInt_eq_div]) rfl rfl rfl rfl rfl rfl rfl rfl rfl rfl
    (by norm_num [Rat.divInt_eq_div, LAMPORTS_PER_SOL, claimTransactionFee])

/-- Forward evaluation of a fully validated claim run whose blockchain stage
succeeds: the outcome depends only on whether the post-send hash write
succeeds. -/
theorem claimReward_run_ok (db : ClaimDbEnv) (ch : ChainEnv) (player : ClaimEntry)
    (cfg : SystemConfig) (wa : String)
    (hwa : player.wallet_address = wa) (hwin : player.is_winner = true)
    (hunc : player.reward_claimed = false) (hpos : 0 < player.prize_amount)
    (hdb1 : db.playerFetchFails = false) (hdb2 : db.configFetchFails = false)
    (hdb3 : db.claimWriteFails = false)
    (hta : optTruthy cfg.central_wallet_address = true)
    (htk : optTruthy cfg.central_wallet_private_key = true)
    (hcon : ch.connectOk = true) (hkey : ch.decodedKeyLen = some 64)
    (hder : ch.derivedAddress = cfg.central_wallet_address.getD "")
    (hrcp : ch.recipientValid = true)
    (hbal : ¬ ((ch.balanceLamports : Rat) / (LAMPORTS_PER_SOL : Rat)
        < player.prize_amount + claimTransactionFee))
    (hbh : ch.blockhashOk = true) (hsend : ch.sendOk = true) :
    claimReward db ch (some player) (some cfg) wa
      = if db.hashWriteFails then
          ⟨.ok ch.signature player.prize_amount wa, some (lockEntry player),
            [.claimLock], [Int.floor (player.prize_amount * (LAMPORTS_PER_SOL : Rat))]⟩
        else
          ⟨.ok ch.signature player.prize_amount wa,
            some { lockEntry player with reward_transaction_hash := some ch.signature },
            [.claimLock, .hashUpdate ch.signature],
            [Int.floor (player.prize_amount * (LAMPORTS_PER_SOL : Rat))]⟩ := by
  have hval : validateAndFetch db (some player) (some cfg) wa = .ok (player, cfg) := by
    have hnp : ¬ player.prize_amount ≤ 0 := not_le.mpr hpos
    simp [validateAndFetch, hwa, hwin, hunc, hnp, hdb1, hdb2, hta, htk]
  have hchain : chainStage (cfg.central_wallet_address.getD "")
      player.prize_amount ch = .ok ch.signature := by
    simp [chainStage, hcon, hkey, hder, hrcp, hbal, hbh, hsend]
  cases hhw : db.hashWriteFails with
  | false => simp [claimReward, hval, payoutStage, hdb3, hchain, hhw]
  | true => simp [claimReward, hval, payoutStage, hdb3, hchain, hhw]

/-- C8 (amended): every successful claim call returns the submission
signature, the unrounded prize amount and the claimant's address; and when
the post-send hash write succeeds the entry's transaction-reference field
holds that signature in place of the sentinel.  (The counterexample below
shows the reference is not persisted when that write fails, which the
source treats as non-critical.) -/
theorem claim_success_reference (db : ClaimDbEnv) (ch : ChainEnv) (player : ClaimEntry)
    (cfg : SystemConfig) (wa : String) (sig : String) (amt : Rat) (rcpt : String)
    (hres : (claimReward db ch (some player) (some cfg) wa).result = .ok sig amt rcpt) :
    sig = ch.signature ∧ amt = player.prize_amount ∧ rcpt = wa
    ∧ (db.hashWriteFails = false →
        (claimReward db ch (some player) (some cfg) wa).entry
          = some { lockEntry player with reward_transaction_hash := some sig }) := by
  cases hv : validateAndFetch db (some player) (some cfg) wa with
  | error e0 => exact absurd hres (by simp [claimReward, hv])
  | ok pc =>
    obtain ⟨p0, c0⟩ := pc
    obtain ⟨hp, hc⟩ := validateAndFetch_ok_shape db (some player) (some cfg) wa (p0, c0) hv
    injection hp with hp1
    injection hc with hc1
    subst hp1
    subst hc1
    have hres2 : (payoutStage db ch player cfg wa).result = .ok sig amt rcpt := by
      simpa [claimReward, hv] using hres
    obtain ⟨hamt, hrcpt, hchain, _, hwf, _⟩ :=
      payoutStage_ok_cases db ch player cfg wa sig amt rcpt hres2
    have hsig : sig = ch.signature := chainStage_ok_sig _ _ _ _ hchain
    refine ⟨hsig, hamt, hrcpt, fun hw => ?_⟩
    have hcq : claimReward db ch (some player) (some cfg) wa
        = payoutStage db ch player cfg wa := by simp [claimReward, hv]
    rw [hcq, hwf hw, hsig]

/-- C8 counterexample: a run in which the post-send hash write fails still
returns a success response carrying the real signature, but the stored
transaction-reference field keeps the PROCESSING sentinel: the real
reference is not persisted for this successful call. -/
theorem claim_success_sentinel_not_replaced :
    (claimReward ⟨false, false, false, true, false⟩
        ⟨true, some 64, "ADDR", true, 1000000000, true, true, "SIG"⟩
        (some ⟨1, "W", 5, some "T", true, Rat.divInt 97 200, false, none⟩)
        (some ⟨some "ADDR", some "KEY"⟩) "W").result = .ok "SIG" (Rat.divInt 97 200) "W"
    ∧ (claimReward ⟨false, false, false, true, false⟩
        ⟨true, some 64, "ADDR", true, 1000000000, true, true, "SIG"⟩
        (some ⟨1, "W", 5, some "T", true, Rat.divInt 97 200, false, none⟩)
        (some ⟨some "ADDR", some "KEY"⟩) "W").entry
      = some ⟨1, "W", 5, some "T", true, Rat.divInt 97 200, true, some "PROCESSING"⟩ := by
  have hrun := claimReward_run_ok ⟨false, false, false, true, false⟩
    ⟨true, some 64, "ADDR", true, 1000000000, true, true, "SIG"⟩
    ⟨1, "W", 5, some "T", true, Rat.divInt 97 200, false, none⟩
    ⟨some "ADDR", some "KEY"⟩ "W" rfl rfl rfl
    (by norm_num [Rat.divInt_eq_div]) rfl rfl rfl rfl rfl rfl rfl rfl rfl
    (by norm_num [Rat.divInt_eq_div, LAMPORTS_PER_SOL, claimTransactionFee]) rfl rfl
  rw [hrun]
  exact ⟨rfl, by simp [lockEntry]⟩

/-- C8 witness: the amended theorem applied to a fully successful run. -/
theorem claim_success_reference_witness :
    "SIG" = ("SIG" : String)
    ∧ Rat.divInt 97 200
        = (⟨1, "W", 5, some "T", true, Rat.divInt 97 200, false, none⟩ : ClaimEntry).prize_amount
    ∧ "W" = ("W" : String)
    ∧ ((⟨false, false, false, false, false⟩ : ClaimDbEnv).hashWriteFails = false →
        (claimReward ⟨false, false, false, false, false⟩
            ⟨true, some 64, "ADDR", true, 1000000000, true, true, "SIG"⟩
            (some ⟨1, "W", 5, some "T", true, Rat.divInt 97 200, false, none⟩)
            (some ⟨some "ADDR", some "KEY"⟩) "W").entry
          = some { lockEntry ⟨1, "W", 5, some "T", true, Rat.divInt 97 200, false, none⟩ with
              reward_transaction_hash := some "SIG" }) :=
  claim_success_reference ⟨false, false, false, false, false⟩
    ⟨true, some 64, "ADDR", true, 1000000000, true, true, "SIG"⟩
    ⟨1, "W", 5, some "T", true, Rat.divInt 97 200, false, none⟩
    ⟨some "ADDR", some "KEY"⟩ "W" "SIG" (Rat.divInt 97 200) "W"
    (by
      rw [claimReward_run_ok ⟨false, false, false, false, false⟩
        ⟨true, some 64, "ADDR", true, 1000000000, true, true, "SIG"⟩
        ⟨1, "W", 5, some "T", true, Rat.divInt 97 200, false, none⟩
        ⟨some "ADDR", some "KEY"⟩ "W" rfl rfl rfl
        (by norm_num [Rat.divInt_eq_div]) rfl rfl rfl rfl rfl rfl rfl rfl rfl
        (by norm_num [Rat.divInt_eq_div, LAMPORTS_PER_SOL, claimTransactionFee]) rfl rfl]
      rfl)

/-- C10: every successful claim submits exactly one transfer of
floor(prize_amount * 10^9) lamports; that never exceeds the recorded
prize_amount (as a fraction of 10^9 lamports per GOR), is strictly below it
by less than one lamport whenever prize_amount is not an integer multiple
of 10^-9, and the returned amount is the unrounded prize_amount. -/
theorem claim_payout_floor_lamports (db : ClaimDbEnv) (ch : ChainEnv) (player : ClaimEntry)
    (cfg : SystemConfig) (wa : String) (sig : String) (amt : Rat) (rcpt : String)
    (hres : (claimReward db ch (some player) (some cfg) wa).result = .ok sig amt rcpt) :
    (claimReward db ch (some player) (some cfg) wa).payoutLamports
      = [Int.floor (player.prize_amount * (LAMPORTS_PER_SOL : Rat))]
    ∧ amt = player.prize_amount
    ∧ (Int.floor (player.prize_amount * (LAMPORTS_PER_SOL : Rat)) : Rat)
        / (LAMPORTS_PER_SOL : Rat) ≤ player.prize_amount
    ∧ (¬ (∃ k : Int, (k : Rat) = player.prize_amount * (LAMPORTS_PER_SOL : Rat)) →
        (Int.floor (player.prize_amount * (LAMPORTS_PER_SOL : Rat)) : Rat)
            / (LAMPORTS_PER_SOL : Rat) < player.prize_amount
        ∧ player.prize_amount
            - (Int.floor (player.prize_amount * (LAMPORTS_PER_SOL : Rat)) : Rat)
              / (LAMPORTS_PER_SOL : Rat) < 1 / (LAMPORTS_PER_SOL : Rat)) := by
  have hL : (0 : Rat) < (LAMPORTS_PER_SOL : Rat) := by norm_num [LAMPORTS_PER_SOL]
  cases hv : validateAndFetch db (some player) (some cfg) wa with
  | error e0 => exact absurd hres (by simp [claimReward, hv])
  | ok pc =>
    obtain ⟨p0, c0⟩ := pc
    obtain ⟨hp, hc⟩ := validateAndFetch_ok_shape db (some player) (some cfg) wa (p0, c0) hv
    injection hp with hp1
    injection hc with hc1
    subst hp1
    subst hc1
    have hres2 : (payoutStage db ch player cfg wa).result = .ok sig amt rcpt := by
      simpa [claimReward, hv] using hres
    obtain ⟨hamt, _, _, hlam, _, _⟩ :=
      payoutStage_ok_cases db ch player cfg wa sig amt rcpt hres2
    have hcq : claimReward db ch (some player) (some cfg) wa
        = payoutStage db ch player cfg wa := by simp [claimReward, hv]
    refine ⟨by rw [hcq]; exact hlam, hamt, ?_, fun hni => ⟨?_, ?_⟩⟩
    · rw [div_le_iff₀ hL]
      exact Int.floor_le _
    · rw [div_lt_iff₀ hL]
      exact lt_of_le_of_ne (Int.floor_le _) (fun hEq => hni ⟨_, hEq⟩)
    · have h2 := Int.lt_floor_add_one (player.prize_amount * (LAMPORTS_PER_SOL : Rat))
      rw [sub_lt_iff_lt_add, div_add_div_same, lt_div_iff₀ hL]
      linarith

/-- C10 witness: the theorem applied to a fully successful run with prize
0.485 GOR, paying exactly 485000000 lamports. -/
theorem claim_payout_floor_lamports_witness :
    (claimReward ⟨false, false, false, false, false⟩
        ⟨true, some 64, "ADDR", true, 1000000000, true, true, "SIG"⟩
        (some ⟨1, "W", 5, some "T", true, Rat.divInt 97 200, false, none⟩)
        (some ⟨some "ADDR", some "KEY"⟩) "W").payoutLamports
      = [Int.floor (Rat.divInt 97 200 * (LAMPORTS_PER_SOL : Rat))]
    ∧ Rat.divInt 97 200
        = (⟨1, "W", 5, some "T", true, Rat.divInt 97 200, false, none⟩ : ClaimEntry).prize_amount
    ∧ (Int.floor (Rat.divInt 97 200 * (LAMPORTS_PER_SOL : Rat)) : Rat)
        / (LAMPORTS_PER_SOL : Rat) ≤ Rat.divInt 97 200
    ∧ (¬ (∃ k : Int, (k : Rat) = Rat.divInt 97 200 * (LAMPORTS_PER_SOL : Rat)) →
        (Int.floor (Rat.divInt 97 200 * (LAMPORTS_PER_SOL : Rat)) : Rat)
            / (LAMPORTS_PER_SOL : Rat) < Rat.divInt 97 200
        ∧ Rat.divInt 97 200
            - (Int.floor (Rat.divInt 97 200 * (LAMPORTS_PER_SOL : Rat)) : Rat)
              / (LAMPORTS_PER_SOL : Rat) < 1 / (LAMPORTS_PER_SOL : Rat)) :=
  claim_payout_floor_lamports ⟨false, false, false, false, false⟩
    ⟨true, some 64, "ADDR", true, 1000000000, true, true, "SIG"⟩
    ⟨1, "W", 5, some "T", true, Rat.divInt 97 200, false, none⟩
    ⟨some "ADDR", some "KEY"⟩ "W" "SIG" (Rat.divInt 97 200) "W"
    (by
      rw [claimReward_run_ok ⟨false, false, false, false, false⟩
        ⟨true, some 64, "ADDR", true, 1000000000, true, true, "SIG"⟩
        ⟨1, "W", 5, some "T", true, Rat.divInt 97 200, false, none⟩
        ⟨some "ADDR", some "KEY"⟩ "W" rfl rfl rfl
        (by norm_num [Rat.divInt_eq_div]) rfl rfl rfl rfl rfl rfl rfl rfl rfl
        (by norm_num [Rat.divInt_eq_div, LAMPORTS_PER_SOL, claimTransactionFee]) rfl rfl]
      rfl)

/-- C1: two concurrent claim invocations on the same winning entry, each
reading the row before either has written it, both pass validation, both
perform the conditional claimed-flag update (the loser's zero-row match is
not an error and the affected row count is never checked), and both submit
an on-chain transfer: two payouts and no already-claimed failure, against
the at-most-once property.  The schedule alternates the two invocations
through their four row-touching operations. -/
theorem claim_concurrent_double_payout :
    (runTwoClaims "W" "SIGA" "SIGB" [false, true, false, true, false, true, false, true]
        ⟨⟨⟨1, "W", 5, some "T", true, Rat.divInt 97 200, false, none⟩, 0⟩,
         ⟨0, none, .running⟩, ⟨0, none, .running⟩⟩).shared.payouts = 2
    ∧ (runTwoClaims "W" "SIGA" "SIGB" [false, true, false, true, false, true, false, true]
        ⟨⟨⟨1, "W", 5, some "T", true, Rat.divInt 97 200, false, none⟩, 0⟩,
         ⟨0, none, .running⟩, ⟨0, none, .running⟩⟩).a.status = .succeeded
    ∧ (runTwoClaims "W" "SIGA" "SIGB" [false, true, false, true, false, true, false, true]
        ⟨⟨⟨1, "W", 5, some "T", true, Rat.divInt 97 200, false, none⟩, 0⟩,
         ⟨0, none, .running⟩, ⟨0, none, .running⟩⟩).b.status = .succeeded := by
  decide

theorem foldl_updateRowById (f : Player → Player)
    (hid : ∀ p, (f p).id = p.id) (hidem : ∀ p, f (f p) = f p)
    (ws : List Nat) (ps : List Player) :
    ws.foldl (fun acc wid => updateRowById f wid acc) ps
      = ps.map (fun p => if p.id ∈ ws then f p else p) := by
  induction ws generalizing ps with
  | nil => simp
  | cons w ws ih =>
    rw [List.foldl_cons, ih, updateRowById, List.map_map]
    refine congrArg (fun fn => List.map fn ps) (funext fun p => ?_)
    by_cases hw : p.id = w
    · by_cases hm : p.id ∈ ws <;>
        simp [Function.comp, hw, hid, hidem, hm, List.mem_cons]
    · by_cases hm : p.id ∈ ws <;>
        simp [Function.comp, hw, hm, List.mem_cons]

theorem foldl_skip_eq_filter (q : Player → Bool) (g : List Player → Nat → List Player)
    (ws : List Player) (ps : List Player) :
    ws.foldl (fun acc w => if q w then acc else g acc w.id) ps
      = (ws.filter (fun w => q w = false)).foldl (fun acc w => g acc w.id) ps := by
  induction ws generalizing ps with
  | nil => rfl
  | cons w ws ih =>
    by_cases hq : q w <;> simp [List.filter_cons, hq, ih]

theorem inj_on_players (players : List Player) (hN : (players.map Player.id).Nodup)
    (p q : Player) (hp : p ∈ players) (hq : q ∈ players) (h : p.id = q.id) : p = q :=
  List.inj_on_of_nodup_map hN hp hq h

theorem mem_filtered_winner_ids (winningNumber : Nat) (players : List Player)
    (g : Player → Bool) (hN : (players.map Player.id).Nodup)
    (p : Player) (hp : p ∈ players) :
    p.id ∈ (((settleWinners winningNumber players).filter g).map Player.id)
      ↔ (p.selected_number = winningNumber ∧ g p = true) := by
  constructor
  · intro hmem
    obtain ⟨q, hq, hid⟩ := List.mem_map.mp hmem
    have hq2 := List.mem_of_mem_filter hq
    have hgq := List.of_mem_filter hq
    have hqp : q ∈ players := List.mem_of_mem_filter hq2
    have hsel : q.selected_number = winningNumber := by
      have := List.of_mem_filter hq2
      simpa [settleWinners] using this
    have : q = p := inj_on_players players hN q p hqp hp hid
    subst this
    exact ⟨hsel, hgq⟩
  · intro ⟨hsel, hg⟩
    exact List.mem_map.mpr ⟨p, List.mem_filter.mpr
      ⟨List.mem_filter.mpr ⟨hp, by simp [hsel]⟩, hg⟩, rfl⟩

theorem settle_players_eq (env : SettleEnv) (o fb : Nat) (players : List Player)
    (lobby : Lobby) (h1 : env.playersFetchFails = false)
    (hN : (players.map Player.id).Nodup) :
    (processCompletedLobbyRun env o fb players lobby).1
      = players.map (fun p =>
          if p.selected_number = o ∧ env.winnerUpdateFails p.id = false then
            winnerUpdate (settlePrize o players) p
          else p) := by
  have hfst : (processCompletedLobbyRun env o fb players lobby).1
      = (settleWinners o players).foldl
          (fun acc w => if env.winnerUpdateFails w.id then acc
            else updateRowById (winnerUpdate (settlePrize o players)) w.id acc) players := by
    unfold processCompletedLobbyRun
    simp only [h1, Bool.false_eq_true, if_false]
    repeat' split
    all_goals rfl
  rw [hfst, foldl_skip_eq_filter (fun w => env.winnerUpdateFails w.id)
    (fun acc wid => updateRowById (winnerUpdate (settlePrize o players)) wid acc) _ players]
  rw [← List.foldl_map Player.id
    (fun acc wid => updateRowById (winnerUpdate (settlePrize o players)) wid acc)]
  rw [foldl_updateRowById (winnerUpdate (settlePrize o players)) (fun p => rfl) (fun p => rfl)]
  refine List.map_congr_left (fun p hp => ?_)
  simp only [mem_filtered_winner_ids o players _ hN p hp, decide_eq_true_eq]

theorem settlePrize_claim_formula (o : Nat) (players : List Player) :
    settlePrize o players
      = ((players.length : Rat) * entryFee * (1 - platformFeeRate))
          / ((settleWinners o players).length : Rat) := by
  unfold settlePrize
  split
  · ring_nf
  · rename_i h
    have hz : ((settleWinners o players).length : Rat) = 0 := by
      simp only [not_lt, Nat.le_zero] at h
      simp [h]
    rw [hz, div_zero]

/-- C2: for an expired active round settled without any persistence error,
the winners are exactly the entries whose selected number equals the drawn
outcome; every winner is updated with is_winner = true, reward_claimed =
false and prize_amount = (n * entry_fee * (1 - platform_fee_percentage))
divided by the number of winners; non-winning entries are unmodified (so
when there is no winner nothing is modified); and the round is marked
completed with the drawn outcome, participant count n and total stake
n * entry_fee.  The id-nodup hypothesis reflects the table's primary key. -/
theorem settle_no_error_characterization (o fb : Nat) (players : List Player)
    (lobby : Lobby) (hN : (players.map Player.id).Nodup) :
    (processCompletedLobbyRun noSettleErrors o fb players lobby).1
      = players.map (fun p =>
          if p.selected_number = o then
            winnerUpdate (((players.length : Rat) * entryFee * (1 - platformFeeRate))
              / ((settleWinners o players).length : Rat)) p
          else p)
    ∧ (processCompletedLobbyRun noSettleErrors o fb players lobby).2
      = { lobby with
          status := .completed, result_number := some o,
          total_players := players.length,
          total_amount := (players.length : Rat) * entryFee } := by
  constructor
  · rw [settle_players_eq noSettleErrors o fb players lobby rfl hN,
      ← settlePrize_claim_formula]
    refine List.map_congr_left (fun p hp => ?_)
    simp [noSettleErrors]
  · unfold processCompletedLobbyRun
    simp [noSettleErrors]

/-! ## Settlement lemmas and claim theorems for the scheduler -/

theorem winnerPrizeSum_map_update (pp : Rat) (cond : Player → Prop) [DecidablePred cond]
    (players : List Player) (hpre : ∀ p ∈ players, p.is_winner = false) :
    winnerPrizeSum (players.map fun p => if cond p then winnerUpdate pp p else p)
      = ((players.countP fun p => decide (cond p)) : Rat) * pp := by
  induction players with
  | nil => simp [winnerPrizeSum]
  | cons q qs ih =>
    have hq := hpre q (List.mem_cons_self q qs)
    have ihq := ih fun p hp => hpre p (List.mem_cons_of_mem q hp)
    by_cases hc : cond q
    · simp [winnerPrizeSum, List.filter_cons, hc, hq, winnerUpdate,
        List.countP_cons] at ihq ⊢
      rw [ihq]
      ring
    · simp [winnerPrizeSum, List.filter_cons, hc, hq, List.countP_cons] at ihq ⊢
      rw [ihq]

theorem settlePrize_nonneg (o : Nat) (players : List Player) :
    0 ≤ settlePrize o players := by
  unfold settlePrize entryFee platformFeeRate
  split
  · apply div_nonneg _ (Nat.cast_nonneg _)
    have h0 : (0 : Rat) ≤ (players.length : Rat) := Nat.cast_nonneg _
    linarith
  · exact le_refl 0

theorem settlePrize_total (o : Nat) (players : List Player)
    (hw : 0 < (settleWinners o players).length) :
    ((settleWinners o players).length : Rat) * settlePrize o players
      = (players.length : Rat) * entryFee * (1 - platformFeeRate) := by
  unfold settlePrize
  rw [if_pos hw]
  have hnz : ((settleWinners o players).length : Rat) ≠ 0 := by
    exact_mod_cast Nat.pos_iff_ne_zero.mp hw
  field_simp
  ring

theorem settle_lobby_normal (env : SettleEnv) (o fb : Nat) (players : List Player)
    (lobby : Lobby) (h1 : env.playersFetchFails = false)
    (h2 : env.lobbyUpdateFails = false) :
    (processCompletedLobbyRun env o fb players lobby).2
      = { lobby with
          status := .completed, result_number := some o,
          total_players := players.length,
          total_amount := (players.length : Rat) * entryFee } := by
  unfold processCompletedLobbyRun
  simp [h1, h2]

theorem settle_lobby_fallback (env : SettleEnv) (o fb : Nat) (players : List Player)
    (lobby : Lobby) (hf : env.fallbackUpdateFails = false)
    (h : env.playersFetchFails = true ∨ env.lobbyUpdateFails = true) :
    (processCompletedLobbyRun env o fb players lobby).2
      = { lobby with
          status := .completed, result_number := some fb,
          total_players := 0, total_amount := 0 } := by
  unfold processCompletedLobbyRun
  rcases h with h | h
  · simp [h, hf]
  · by_cases hpf : env.playersFetchFails = true
    · simp [hpf, hf]
    · simp at hpf
      simp [hpf, h, hf]

/-- C5 (amended): for every round completed through the normal settlement
path (entry load and round-completion write succeed), the sum of
prize_amount over its winning entries is at most total_stake * (1 -
platform_fee_percentage), with equality when every winner-row update
succeeded and at least one winner exists (the split is exact in rational
arithmetic).  The counterexample shows the bound does not extend to rounds
completed through the settlement-failure fallback path, where winner rows
already updated keep their prizes while the recorded total stake is zeroed. -/
theorem settle_normal_prize_bound (env : SettleEnv) (o fb : Nat) (players : List Player)
    (lobby : Lobby) (h1 : env.playersFetchFails = false)
    (h2 : env.lobbyUpdateFails = false) (hN : (players.map Player.id).Nodup)
    (hpre : ∀ p ∈ players, p.is_winner = false) :
    winnerPrizeSum (processCompletedLobbyRun env o fb players lobby).1
      ≤ (processCompletedLobbyRun env o fb players lobby).2.total_amount
          * (1 - platformFeeRate)
    ∧ ((∀ p ∈ players, env.winnerUpdateFails p.id = false) →
        0 < (settleWinners o players).length →
        winnerPrizeSum (processCompletedLobbyRun env o fb players lobby).1
          = (processCompletedLobbyRun env o fb players lobby).2.total_amount
              * (1 - platformFeeRate)) := by
  have hlob := settle_lobby_normal env o fb players lobby h1 h2
  have hpl := settle_players_eq env o fb players lobby h1 hN
  have hsum := winnerPrizeSum_map_update (settlePrize o players)
    (fun p => p.selected_number = o ∧ env.winnerUpdateFails p.id = false) players hpre
  beta_reduce at hsum
  have hppnn := settlePrize_nonneg o players
  have hpoolnn : (0 : Rat) ≤ (players.length : Rat) * entryFee := by
    unfold entryFee
    positivity
  have hfeenn : (0 : Rat) ≤ 1 - platformFeeRate := by norm_num [platformFeeRate]
  have hcount : (players.countP fun p =>
      decide (p.selected_number = o ∧ env.winnerUpdateFails p.id = false))
        ≤ (settleWinners o players).length := by
    rw [settleWinners, ← List.countP_eq_length_filter]
    exact List.countP_mono_left fun p hp hd => by
      simp at hd ⊢
      exact hd.1
  constructor
  · rw [hpl, hsum, hlob]
    by_cases hw0 : (settleWinners o players).length = 0
    · have hc0 : (players.countP fun p =>
          decide (p.selected_number = o ∧ env.winnerUpdateFails p.id = false)) = 0 := by
        omega
      rw [hc0]
      simpa using mul_nonneg hpoolnn hfeenn
    · have hwpos : 0 < (settleWinners o players).length := Nat.pos_of_ne_zero hw0
      refine le_trans (mul_le_mul_of_nonneg_right ?_ hppnn)
        (le_of_eq (settlePrize_total o players hwpos))
      exact_mod_cast hcount
  · intro hnf hwpos
    have hc : (players.countP fun p =>
        decide (p.selected_number = o ∧ env.winnerUpdateFails p.id = false))
          = (settleWinners o players).length := by
      rw [settleWinners, ← List.countP_eq_length_filter]
      apply le_antisymm
      · exact List.countP_mono_left fun p hp hd => by
          simp at hd ⊢
          exact hd.1
      · exact List.countP_mono_left fun p hp hd => by
          simp at hd ⊢
          exact ⟨hd, hnf p hp⟩
    rw [hpl, hsum, hlob, hc]
    exact settlePrize_total o players hwpos

/-- C6 (amended): when settlement aborts partway — the entry load or the
round-completion write fails — and the unchecked fallback write succeeds,
the round is force-completed with the fallback drawn outcome and zero
recorded participants and stake; but a failed winner-row update alone does
not abort settlement: it is only logged, and the round still completes
normally with its real outcome and true totals (see the counterexample). -/
theorem settle_failure_completion (env : SettleEnv) (o fb : Nat) (players : List Player)
    (lobby : Lobby) :
    (env.fallbackUpdateFails = false →
      env.playersFetchFails = true ∨ env.lobbyUpdateFails = true →
      (processCompletedLobbyRun env o fb players lobby).2
        = { lobby with
            status := .completed, result_number := some fb,
            total_players := 0, total_amount := 0 })
    ∧ (env.playersFetchFails = false → env.lobbyUpdateFails = false →
      (processCompletedLobbyRun env o fb players lobby).2
        = { lobby with
            status := .completed, result_number := some o,
            total_players := players.length,
            total_amount := (players.length : Rat) * entryFee }) :=
  ⟨fun hf h => settle_lobby_fallback env o fb players lobby hf h,
   fun ha hb => settle_lobby_normal env o fb players lobby ha hb⟩


/-- C2 witness. -/
theorem settle_no_error_characterization_witness :
    (processCompletedLobbyRun noSettleErrors 7 3
        [⟨1, 1, "A", 7, none, false, 0, false⟩, ⟨2, 1, "B", 3, none, false, 0, false⟩]
        ⟨1, 0, 60000, .active, none, 0, 0⟩).1
      = ([⟨1, 1, "A", 7, none, false, 0, false⟩, ⟨2, 1, "B", 3, none, false, 0, false⟩]
          : List Player).map (fun p =>
          if p.selected_number = 7 then
            winnerUpdate
              ((((([⟨1, 1, "A", 7, none, false, 0, false⟩,
                  ⟨2, 1, "B", 3, none, false, 0, false⟩] : List Player)).length : Rat)
                  * entryFee * (1 - platformFeeRate))
                / ((settleWinners 7 [⟨1, 1, "A", 7, none, false, 0, false⟩,
                    ⟨2, 1, "B", 3, none, false, 0, false⟩]).length : Rat)) p
          else p)
    ∧ (processCompletedLobbyRun noSettleErrors 7 3
        [⟨1, 1, "A", 7, none, false, 0, false⟩, ⟨2, 1, "B", 3, none, false, 0, false⟩]
        ⟨1, 0, 60000, .active, none, 0, 0⟩).2
      = { (⟨1, 0, 60000, .active, none, 0, 0⟩ : Lobby) with
          status := .completed, result_number := some 7,
          total_players := ([⟨1, 1, "A", 7, none, false, 0, false⟩,
            ⟨2, 1, "B", 3, none, false, 0, false⟩] : List Player).length,
          total_amount := (((([⟨1, 1, "A", 7, none, false, 0, false⟩,
            ⟨2, 1, "B", 3, none, false, 0, false⟩] : List Player)).length : Rat) * entryFee) } :=
  settle_no_error_characterization 7 3
    [⟨1, 1, "A", 7, none, false, 0, false⟩, ⟨2, 1, "B", 3, none, false, 0, false⟩]
    ⟨1, 0, 60000, .active, none, 0, 0⟩ (by decide)

/-- C5 counterexample: one entry guessing the drawn number, the winner-row
update succeeds, then the round-completion write fails and the fallback
write succeeds: the round ends completed with total_amount = 0 while the
winner holds a prize of 0.097, violating the claimed invariant
sum(prize) <= total_stake * (1 - fee) for fallback-completed rounds. -/
theorem completed_round_prize_bound_violation :
    ((processCompletedLobbyRun ⟨false, fun _ => false, true, false⟩ 7 3
        [⟨1, 1, "A", 7, none, false, 0, false⟩] ⟨1, 0, 60000, .active, none, 0, 0⟩).2.status
      = .completed)
    ∧ ¬ (winnerPrizeSum (processCompletedLobbyRun ⟨false, fun _ => false, true, false⟩ 7 3
        [⟨1, 1, "A", 7, none, false, 0, false⟩] ⟨1, 0, 60000, .active, none, 0, 0⟩).1
      ≤ (processCompletedLobbyRun ⟨false, fun _ => false, true, false⟩ 7 3
          [⟨1, 1, "A", 7, none, false, 0, false⟩]
          ⟨1, 0, 60000, .active, none, 0, 0⟩).2.total_amount
        * (1 - platformFeeRate)) := by
  norm_num [processCompletedLobbyRun, settleWinners, settlePrize, updateRowById,
    winnerUpdate, winnerPrizeSum, entryFee, platformFeeRate,
    List.filter_cons, List.foldl_cons, List.foldl_nil]

/-- C5 witness. -/
theorem settle_normal_prize_bound_witness :
    winnerPrizeSum (processCompletedLobbyRun ⟨false, fun _ => false, false, false⟩ 7 3
        [⟨1, 1, "A", 7, none, false, 0, false⟩] ⟨1, 0, 60000, .active, none, 0, 0⟩).1
      ≤ (processCompletedLobbyRun ⟨false, fun _ => false, false, false⟩ 7 3
          [⟨1, 1, "A", 7, none, false, 0, false⟩]
          ⟨1, 0, 60000, .active, none, 0, 0⟩).2.total_amount * (1 - platformFeeRate)
    ∧ ((∀ p ∈ ([⟨1, 1, "A", 7, none, false, 0, false⟩] : List Player),
          (⟨false, fun _ => false, false, false⟩ : SettleEnv).winnerUpdateFails p.id = false) →
        0 < (settleWinners 7 [⟨1, 1, "A", 7, none, false, 0, false⟩]).length →
        winnerPrizeSum (processCompletedLobbyRun ⟨false, fun _ => false, false, false⟩ 7 3
            [⟨1, 1, "A", 7, none, false, 0, false⟩] ⟨1, 0, 60000, .active, none, 0, 0⟩).1
          = (processCompletedLobbyRun ⟨false, fun _ => false, false, false⟩ 7 3
              [⟨1, 1, "A", 7, none, false, 0, false⟩]
              ⟨1, 0, 60000, .active, none, 0, 0⟩).2.total_amount * (1 - platformFeeRate)) :=
  settle_normal_prize_bound ⟨false, fun _ => false, false, false⟩ 7 3
    [⟨1, 1, "A", 7, none, false, 0, false⟩] ⟨1, 0, 60000, .active, none, 0, 0⟩
    rfl rfl (by decide) (by decide)

/-- C6 counterexample: when the only winner-row update fails (the claim's
own example of settlement failing partway), the entry list is unchanged,
yet the round is completed with the real drawn outcome 7 and one recorded
participant — not force-completed with the fallback outcome and zeroed
participants/stake as the claim states. -/
theorem winner_update_failure_completes_normally :
    ((processCompletedLobbyRun ⟨false, fun i => i == 1, false, false⟩ 7 3
        [⟨1, 1, "A", 7, none, false, 0, false⟩] ⟨1, 0, 60000, .active, none, 0, 0⟩).1
      = [⟨1, 1, "A", 7, none, false, 0, false⟩])
    ∧ (processCompletedLobbyRun ⟨false, fun i => i == 1, false, false⟩ 7 3
        [⟨1, 1, "A", 7, none, false, 0, false⟩]
        ⟨1, 0, 60000, .active, none, 0, 0⟩).2.result_number = some 7
    ∧ (processCompletedLobbyRun ⟨false, fun i => i == 1, false, false⟩ 7 3
        [⟨1, 1, "A", 7, none, false, 0, false⟩]
        ⟨1, 0, 60000, .active, none, 0, 0⟩).2.total_players = 1
    ∧ ¬ ((processCompletedLobbyRun ⟨false, fun i => i == 1, false, false⟩ 7 3
        [⟨1, 1, "A", 7, none, false, 0, false⟩]
        ⟨1, 0, 60000, .active, none, 0, 0⟩).2.total_players = 0
      ∧ (processCompletedLobbyRun ⟨false, fun i => i == 1, false, false⟩ 7 3
        [⟨1, 1, "A", 7, none, false, 0, false⟩]
        ⟨1, 0, 60000, .active, none, 0, 0⟩).2.total_amount = 0) := by
  norm_num [processCompletedLobbyRun, settleWinners, settlePrize, updateRowById,
    winnerUpdate, entryFee, platformFeeRate,
    List.filter_cons, List.foldl_cons, List.foldl_nil]

/-- C6 witness. -/
theorem settle_failure_completion_witness :
    ((⟨true, fun _ => false, false, false⟩ : SettleEnv).fallbackUpdateFails = false →
      (⟨true, fun _ => false, false, false⟩ : SettleEnv).playersFetchFails = true
        ∨ (⟨true, fun _ => false, false, false⟩ : SettleEnv).lobbyUpdateFails = true →
      (processCompletedLobbyRun ⟨true, fun _ => false, false, false⟩ 7 3 []
        ⟨1, 0, 60000, .active, none, 0, 0⟩).2
        = { (⟨1, 0, 60000, .active, none, 0, 0⟩ : Lobby) with
            status := .completed, result_number := some 3,
            total_players := 0, total_amount := 0 })
    ∧ ((⟨true, fun _ => false, false, false⟩ : SettleEnv).playersFetchFails = false →
      (⟨true, fun _ => false, false, false⟩ : SettleEnv).lobbyUpdateFails = false →
      (processCompletedLobbyRun ⟨true, fun _ => false, false, false⟩ 7 3 []
        ⟨1, 0, 60000, .active, none, 0, 0⟩).2
        = { (⟨1, 0, 60000, .active, none, 0, 0⟩ : Lobby) with
            status := .completed, result_number := some 7,
            total_players := ([] : List Player).length,
            total_amount := ((([] : List Player).length : Rat) * entryFee) }) :=
  settle_failure_completion ⟨true, fun _ => false, false, false⟩ 7 3 []
    ⟨1, 0, 60000, .active, none, 0, 0⟩



theorem settle_lobby_inv (env : SettleEnv) (o fb : Nat) (players : List Player)
    (l : Lobby) (hact : l.status = .active) (hnone : l.result_number = none) :
    ((processCompletedLobbyRun env o fb players l).2.result_number ≠ none
      ↔ (processCompletedLobbyRun env o fb players l).2.status = .completed) := by
  unfold processCompletedLobbyRun
  repeat' split
  all_goals simp_all

/-- C7: in every lobby-table state reachable by scheduler mutations —
round creation, activation, normal completion and fallback completion —
a round's outcome field is non-null exactly when its status is completed. -/
theorem reachable_outcome_iff_completed (ls : List Lobby) (h : SchedReachable ls) :
    ∀ l ∈ ls, (l.result_number ≠ none ↔ l.status = .completed) := by
  induction h with
  | init =>
    intro l hl
    exact absurd hl (List.not_mem_nil l)
  | step _ hstep ih =>
    cases hstep with
    | create ls0 idv now =>
      intro l hl
      rcases List.mem_append.mp hl with h1 | h2
      · exact ih l h1
      · rw [List.mem_singleton] at h2
        subst h2
        simp [newLobby]
    | activate pre post l0 hw =>
      intro l hl
      have hl0 := ih l0 (List.mem_append_right _ (List.mem_cons_self _ _))
      rcases List.mem_append.mp hl with h1 | h2
      · exact ih l (List.mem_append_left _ h1)
      · rcases List.mem_cons.mp h2 with h3 | h4
        · subst h3
          have hno : l0.result_number = none := by
            cases hres : l0.result_number with
            | none => rfl
            | some n =>
              have := hl0.mp (by simp [hres])
              rw [this] at hw
              exact absurd hw (by simp)
          simp [hno, hw]
        · exact ih l (List.mem_append_right _ (List.mem_cons_of_mem _ h4))
    | settle pre post l0 env o fb players hact =>
      intro l hl
      have hl0 := ih l0 (List.mem_append_right _ (List.mem_cons_self _ _))
      rcases List.mem_append.mp hl with h1 | h2
      · exact ih l (List.mem_append_left _ h1)
      · rcases List.mem_cons.mp h2 with h3 | h4
        · subst h3
          have hno : l0.result_number = none := by
            cases hres : l0.result_number with
            | none => rfl
            | some n =>
              have := hl0.mp (by simp [hres])
              rw [this] at hact
              exact absurd hact (by simp)
          exact settle_lobby_inv env o fb players l0 hact hno
        · exact ih l (List.mem_append_right _ (List.mem_cons_of_mem _ h4))

/-- C7 witness. -/
theorem reachable_outcome_iff_completed_witness :
    ((newLobby 1 0).result_number ≠ none ↔ (newLobby 1 0).status = .completed) :=
  reachable_outcome_iff_completed ([] ++ [newLobby 1 0])
    (SchedReachable.step SchedReachable.init (SchedStep.create [] 1 0))
    (newLobby 1 0) (by simp)

theorem foldl_snd_count {α β : Type} (g : List β × Nat → α → List β) (l : List α)
    (s : List β) (n : Nat) :
    (l.foldl (fun acc x => (g acc x, acc.2 + 1)) (s, n)).2 = n + l.length := by
  induction l generalizing s n with
  | nil => simp
  | cons a l ih =>
    rw [List.foldl_cons, ih]
    simp only [List.length_cons]
    omega

theorem foldl_snd_count_skip {α β : Type} (q : α → Bool) (g : List β × Nat → α → List β)
    (l : List α) (s : List β) (n : Nat) :
    (l.foldl (fun acc x => if q x then acc else (g acc x, acc.2 + 1)) (s, n)).2
      = n + (l.filter (fun x => q x = false)).length := by
  induction l generalizing s n with
  | nil => simp
  | cons a l ih =>
    rw [List.foldl_cons]
    by_cases hq : q a
    · simp only [hq, if_true]
      rw [ih]
      simp [List.filter_cons, hq]
    · simp only [hq, if_false]
      rw [ih]
      simp [List.filter_cons, hq]
      omega

/-- C9 (amended): when the three list fetches and the round insert succeed,
per-round errors are contained: every expired round is still processed
(settlement never throws), every due waiting round whose activation update
succeeds is activated while failed ones are only logged, and the invocation
reports success.  The counterexample shows that an error in a fetch query
aborts the entire invocation instead, contradicting the claim as stated. -/
theorem scheduler_contained_errors (env : SchedulerEnv) (now : Int) (ls : List Lobby)
    (h1 : env.expiredFetchFails = false) (h2 : env.waitingFetchFails = false)
    (h3 : env.currentFetchFails = false) (h4 : env.createFails = false) :
    (runScheduler env now ls).success = true
    ∧ (runScheduler env now ls).processedLobbies = (ls.filter (isExpiredActive now)).length
    ∧ (runScheduler env now ls).activatedLobbies
        = (((settlePhase env now ls).1.filter (isDueWaiting now)).filter
            (fun l => env.activateFails l.id = false)).length := by
  have hp : (settlePhase env now ls).2 = (ls.filter (isExpiredActive now)).length := by
    unfold settlePhase
    rw [foldl_snd_count]
    simp
  have ha : (activatePhase env now (settlePhase env now ls).1).2
      = (((settlePhase env now ls).1.filter (isDueWaiting now)).filter
          (fun l => env.activateFails l.id = false)).length := by
    unfold activatePhase
    rw [foldl_snd_count_skip]
    simp
  unfold runScheduler
  simp only [h1, h2, h3, h4, Bool.false_eq_true, if_false]
  split
  · exact ⟨rfl, hp, ha⟩
  · exact ⟨rfl, hp, ha⟩

/-- C9 counterexample: a persistence error in the expired-rounds fetch (the
first query of the settlement sub-step) aborts the whole invocation with a
failure response: a due waiting round is present but the activation and
creation sub-steps never run, against the claim that any sub-step
persistence error is logged and the routine continues. -/
theorem scheduler_fetch_error_aborts :
    (runScheduler ⟨true, fun _ => noSettleErrors, fun _ => 7, fun _ => 3, fun _ => [],
        false, fun _ => false, false, false, 99⟩ 100000
        [⟨1, 0, 60000, .waiting, none, 0, 0⟩]).success = false
    ∧ (runScheduler ⟨true, fun _ => noSettleErrors, fun _ => 7, fun _ => 3, fun _ => [],
        false, fun _ => false, false, false, 99⟩ 100000
        [⟨1, 0, 60000, .waiting, none, 0, 0⟩]).activatedLobbies = 0
    ∧ (runScheduler ⟨true, fun _ => noSettleErrors, fun _ => 7, fun _ => 3, fun _ => [],
        false, fun _ => false, false, false, 99⟩ 100000
        [⟨1, 0, 60000, .waiting, none, 0, 0⟩]).createdNewLobby = false
    ∧ isDueWaiting 100000 ⟨1, 0, 60000, .waiting, none, 0, 0⟩ = true := by
  decide

/-- C9 witness. -/
theorem scheduler_contained_errors_witness :
    (runScheduler ⟨false, fun _ => noSettleErrors, fun _ => 7, fun _ => 3, fun _ => [],
        false, fun _ => false, false, false, 99⟩ 100000
        [⟨1, 0, 60000, .waiting, none, 0, 0⟩]).success = true
    ∧ (runScheduler ⟨false, fun _ => noSettleErrors, fun _ => 7, fun _ => 3, fun _ => [],
        false, fun _ => false, false, false, 99⟩ 100000
        [⟨1, 0, 60000, .waiting, none, 0, 0⟩]).processedLobbies
      = (([⟨1, 0, 60000, .waiting, none, 0, 0⟩] : List Lobby).filter
          (isExpiredActive 100000)).length
    ∧ (runScheduler ⟨false, fun _ => noSettleErrors, fun _ => 7, fun _ => 3, fun _ => [],
        false, fun _ => false, false, false, 99⟩ 100000
        [⟨1, 0, 60000, .waiting, none, 0, 0⟩]).activatedLobbies
      = (((settlePhase ⟨false, fun _ => noSettleErrors, fun _ => 7, fun _ => 3, fun _ => [],
            false, fun _ => false, false, false, 99⟩ 100000
            [⟨1, 0, 60000, .waiting, none, 0, 0⟩]).1.filter (isDueWaiting 100000)).filter
          (fun l => (⟨false, fun _ => noSettleErrors, fun _ => 7, fun _ => 3, fun _ => [],
            false, fun _ => false, false, false, 99⟩
              : SchedulerEnv).activateFails l.id = false)).length :=
  scheduler_contained_errors ⟨false, fun _ => noSettleErrors, fun _ => 7, fun _ => 3,
    fun _ => [], false, fun _ => false, false, false, 99⟩ 100000
    [⟨1, 0, 60000, .waiting, none, 0, 0⟩] rfl rfl rfl rfl


end Drawgor
